import Mathlib

/-!
Verification development for the jira-agent repository.

We shallowly embed the core components the specification talks about:
the FAISS-backed vector store (`src/services/vector_store.py`), the
in-memory session store (`src/services/session_store.py`), the intent
orchestrator (`src/agents/orchestrator_agent.py`), the Jira action node
(`src/agents/jira_agent.py`) and the routing function of the LangGraph
pipeline (`src/graphs/jira_graph.py`).

Modelling conventions:
* Python floats are modelled by exact rationals `ℚ`; we verify the exact
  real-number semantics of the arithmetic the code performs.
* In-place mutation with exceptions is modelled by returning the
  post-call state together with an `Option String` error (the state
  component is the object state after the call, whether or not it
  raised), or by `Except` where no mutation precedes the raise.
* The external FAISS index (`faiss.IndexFlatL2`) is modelled by its
  documented semantics: it stores vectors in insertion order, `add`
  requires a 2-D batch whose second dimension equals the index
  dimension, and `search(q, k)` returns the `k` nearest rows by
  *squared* L2 distance, in non-decreasing distance order.
* `numpy.array(embeddings, dtype=float32)` yields a 1-D empty array for
  an empty outer list, a 2-D array for a rectangular list of lists, and
  raises `ValueError` for a ragged list of lists.
-/

namespace JiraAgent

/-- The `JiraTicket` TypedDict of `src/models/state.py`. -/
structure JiraTicket where
  id : Option String
  key : String
  summary : String
  description : String
  status : String
  priority : String
  assignee : Option String
  created : String
  updated : String
  issue_type : String
  labels : List String
  similarity_score : Option ℚ
  deriving Repr, DecidableEq

/-- State of `VectorStore` (`src/services/vector_store.py`): the FAISS
`IndexFlatL2` contents (`index`, a list of stored vectors in insertion
order), the parallel `metadata` list, and the fixed `dimension`
(384 in `__init__`). After `__init__` the FAISS index object is never
`None`, so we represent it directly by its list of rows. -/
structure VectorStore where
  dimension : Nat
  index : List (List ℚ)
  metadata : List JiraTicket
  deriving Repr, DecidableEq

/-- Squared L2 distance between a query and a stored vector; this is the
distance value FAISS's `IndexFlatL2.search` reports. -/
def sqDist (q v : List ℚ) : ℚ :=
  ((q.zip v).map fun p => (p.1 - p.2) ^ 2).sum

/-- Pair each element of a list with its row index, starting at `i`.
Models the row ids FAISS associates to stored vectors. -/
def withIdxFrom : Nat → List ℚ → List (ℚ × Nat)
  | _, [] => []
  | i, d :: rest => (d, i) :: withIdxFrom (i + 1) rest

/-- The order in which FAISS reports search results: non-decreasing
distance, ties broken by row id. -/
def faissOrder (a b : ℚ × Nat) : Prop :=
  a.1 < b.1 ∨ (a.1 = b.1 ∧ a.2 ≤ b.2)

instance : DecidableRel faissOrder := fun a b =>
  inferInstanceAs (Decidable (a.1 < b.1 ∨ (a.1 = b.1 ∧ a.2 ≤ b.2)))

instance : IsTotal (ℚ × Nat) faissOrder where
  total a b := by
    rcases lt_trichotomy a.1 b.1 with h | h | h
    · exact Or.inl (Or.inl h)
    · rcases Nat.le_total a.2 b.2 with h2 | h2
      · exact Or.inl (Or.inr ⟨h, h2⟩)
      · exact Or.inr (Or.inr ⟨h.symm, h2⟩)
    · exact Or.inr (Or.inl h)

instance : IsTrans (ℚ × Nat) faissOrder where
  trans a b c hab hbc := by
    rcases hab with h1 | ⟨h1, h1'⟩ <;> rcases hbc with h2 | ⟨h2, h2'⟩
    · exact Or.inl (h1.trans h2)
    · exact Or.inl (h2 ▸ h1)
    · exact Or.inl (h1 ▸ h2)
    · exact Or.inr ⟨h1.trans h2, h1'.trans h2'⟩

/-- `faiss.IndexFlatL2.search`: squared L2 distances of the query to all
rows, sorted by `faissOrder`, truncated to `k` results. -/
def faissSearch (index : List (List ℚ)) (q : List ℚ) (k : Nat) : List (ℚ × Nat) :=
  (List.insertionSort faissOrder (withIdxFrom 0 (index.map (sqDist q)))).take k

/-- The result-accumulation loop of `VectorStore.search` (lines 89-99):
for each `(distance, idx)` pair in FAISS order, compute
`similarity = 1 / (1 + distance)`; when `idx` is a valid metadata row,
record `(ticket.key, similarity)` as a diagnostic candidate and, when the
threshold (if any) is met, a `(ticket, similarity)` result where the
ticket copy carries `similarity_score`. -/
def searchLoop (metadata : List JiraTicket) (threshold : Option ℚ) :
    List (ℚ × Nat) → List (JiraTicket × ℚ) × List (String × ℚ)
  | [] => ([], [])
  | (d, idx) :: rest =>
    let acc := searchLoop metadata threshold rest
    let similarity := 1 / (1 + d)
    if h : idx < metadata.length then
      let ticket := { metadata.get ⟨idx, h⟩ with similarity_score := some similarity }
      ((match threshold with
        | none => (ticket, similarity) :: acc.1
        | some t => if t ≤ similarity then (ticket, similarity) :: acc.1 else acc.1),
        (ticket.key, similarity) :: acc.2)
    else (acc.1, acc.2)

/-- `VectorStore.search` (lines 58-106): empty index short-circuits to
`[]`; otherwise FAISS is queried for `min(k, ntotal)` rows and the loop
above assembles the returned list. -/
def VectorStore.search (vs : VectorStore) (q : List ℚ) (k : Nat)
    (threshold : Option ℚ) : List (JiraTicket × ℚ) :=
  if vs.index.length = 0 then []
  else (searchLoop vs.metadata threshold
    (faissSearch vs.index q (min k vs.index.length))).1

/-- The full candidate list (`all_candidates`) the same call computes and
logs for diagnostics, threshold or not. -/
def VectorStore.searchCandidates (vs : VectorStore) (q : List ℚ) (k : Nat)
    (threshold : Option ℚ) : List (String × ℚ) :=
  if vs.index.length = 0 then []
  else (searchLoop vs.metadata threshold
    (faissSearch vs.index q (min k vs.index.length))).2

/-- Shape of `numpy.array(embeddings, dtype=np.float32)`. -/
inductive NpShape where
  | one (n : Nat)
  | two (n d : Nat)
  deriving Repr, DecidableEq

/-- `numpy.array` on a list of embedding rows: an empty outer list gives
a 1-D array of shape `(0,)`; a rectangular list gives a 2-D array; a
ragged list raises `ValueError`. -/
def npArray (embeddings : List (List ℚ)) : Except String NpShape :=
  match embeddings with
  | [] => .ok (.one 0)
  | v :: rest =>
    if rest.all fun w => w.length = v.length then .ok (.two (rest.length + 1) v.length)
    else .error "ValueError: setting an array element with a sequence"

/-- `faiss.IndexFlatL2.add`: unpacks `n, d = x.shape` (raising for a 1-D
array), asserts `d == self.d`, then appends the rows. -/
def faissAdd (vs : VectorStore) (embeddings : List (List ℚ)) (shape : NpShape) :
    Except String VectorStore :=
  match shape with
  | .one _ => .error "ValueError: not enough values to unpack (expected 2, got 1)"
  | .two _ d =>
    if d = vs.dimension then .ok { vs with index := vs.index ++ embeddings }
    else .error "AssertionError: d == self.d"

/-- `VectorStore.add_tickets` (lines 36-56). Returns the post-call state
and the raised error, if any; every raise happens before any mutation,
so on error the state is returned unchanged. -/
def VectorStore.add_tickets (vs : VectorStore) (tickets : List JiraTicket)
    (embeddings : List (List ℚ)) : VectorStore × Option String :=
  if tickets.length ≠ embeddings.length then
    (vs, some "ValueError: Number of tickets must match number of embeddings")
  else
    match npArray embeddings with
    | .error e => (vs, some e)
    | .ok shape =>
      match faissAdd vs embeddings shape with
      | .error e => (vs, some e)
      | .ok vs' => ({ vs' with metadata := vs'.metadata ++ tickets }, none)

/-- `VectorStore._initialize_index` (lines 31-34): fresh empty FAISS
index of the configured dimension; metadata untouched. -/
def VectorStore.initIndex (vs : VectorStore) : VectorStore :=
  { vs with index := [] }

/-- `VectorStore.clear` (lines 139-143). -/
def VectorStore.clear (vs : VectorStore) : VectorStore :=
  { vs.initIndex with metadata := [] }

/-- `VectorStore.rebuild` (lines 145-156): `clear` then `add_tickets`
then `save`; an exception from `add_tickets` propagates, leaving the
store in the post-`clear` state (`save` does not change in-memory
state). -/
def VectorStore.rebuild (vs : VectorStore) (tickets : List JiraTicket)
    (embeddings : List (List ℚ)) : VectorStore × Option String :=
  (vs.clear).add_tickets tickets embeddings

/-- `VectorStore.save` (lines 108-121): the matched pair of files written
to disk (index structure, metadata list). In our model `index` is never
`None`, so the early-return guard never fires. -/
def VectorStore.save (vs : VectorStore) : List (List ℚ) × List JiraTicket :=
  (vs.index, vs.metadata)

/-- `VectorStore.load` (lines 123-137). The two arguments are the file
contents: `none` means the read/deserialisation raises. `read_index`
assigns `self.index` before the metadata unpickling runs, and the
`except` handler only re-initialises the index, keeping whatever
`self.metadata` held before the call. No consistency check between the
two files is performed. -/
def VectorStore.load (vs : VectorStore) (indexFile : Option (List (List ℚ)))
    (metaFile : Option (List JiraTicket)) : VectorStore :=
  match indexFile with
  | none => vs.initIndex
  | some idx =>
    match metaFile with
    | none => ({ vs with index := idx }).initIndex
    | some m => { vs with index := idx, metadata := m }

/-- The record-count invariant of the spec's VectorRecord data model:
the number of stored vectors equals the metadata-list length. -/
def storeInv (vs : VectorStore) : Prop :=
  vs.index.length = vs.metadata.length

instance (vs : VectorStore) : Decidable (storeInv vs) :=
  inferInstanceAs (Decidable (_ = _))

/-! ## Session store (`src/services/session_store.py`) -/

/-- One session's dict in `SessionStore._sessions`. The python dict keys
are `exists` (always `True`), `first_turn`, `similar_tickets`,
`user_decision`, `created_at`, `last_activity`; timestamps are opaque
strings supplied by the caller in our model. -/
structure SessionData where
  existsFlag : Bool
  first_turn : Bool
  similar_tickets : List JiraTicket
  user_decision : Option String
  created_at : String
  last_activity : String
  deriving Repr, DecidableEq

/-- The singleton `SessionStore`'s `_sessions` dict, as an association
list keyed by session id. -/
structure SessionStore where
  sessions : List (String × SessionData)
  deriving Repr, DecidableEq

namespace SessionStore

/-- Dict lookup `self._sessions[session_id]` / membership test. -/
def lookup (st : SessionStore) (session_id : String) : Option SessionData :=
  (st.sessions.find? fun p => p.1 = session_id).map Prod.snd

/-- Dict update for an existing key, applying `f` to the stored value. -/
def updateEntry (st : SessionStore) (session_id : String)
    (f : SessionData → SessionData) : SessionStore :=
  ⟨st.sessions.map fun p => if p.1 = session_id then (p.1, f p.2) else p⟩

/-- The fresh dict built by `get_or_create_session` (lines 33-41). -/
def newSession (now : String) : SessionData :=
  { existsFlag := true, first_turn := true, similar_tickets := []
    user_decision := none, created_at := now, last_activity := now }

/-- `SessionStore.get_or_create_session` (lines 26-47): inserts a fresh
session for an unseen id, else refreshes `last_activity`; returns a copy
of the stored dict together with the updated store. -/
def get_or_create_session (st : SessionStore) (session_id : String)
    (now : String) : SessionData × SessionStore :=
  match st.lookup session_id with
  | none => (newSession now, ⟨st.sessions ++ [(session_id, newSession now)]⟩)
  | some s =>
    let s' := { s with last_activity := now }
    (s', st.updateEntry session_id fun t => { t with last_activity := now })

/-- `SessionStore.session_exists` (lines 49-51). -/
def session_exists (st : SessionStore) (session_id : String) : Bool :=
  (st.lookup session_id).isSome

/-- `SessionStore.is_first_turn` (lines 53-57). -/
def is_first_turn (st : SessionStore) (session_id : String) : Bool :=
  match st.lookup session_id with
  | none => true
  | some s => s.first_turn

/-- `SessionStore.mark_turn_complete` (lines 59-63): guarded by
membership, so a no-op for an unseen id. -/
def mark_turn_complete (st : SessionStore) (session_id : String)
    (now : String) : SessionStore :=
  if (st.lookup session_id).isSome then
    st.updateEntry session_id fun s => { s with first_turn := false, last_activity := now }
  else st

/-- `SessionStore.store_similarity_results` (lines 65-71). -/
def store_similarity_results (st : SessionStore) (session_id : String)
    (tickets : List JiraTicket) (now : String) : SessionStore :=
  if (st.lookup session_id).isSome then
    st.updateEntry session_id fun s =>
      { s with similar_tickets := tickets, last_activity := now }
  else st

/-- `SessionStore.get_similar_tickets` (lines 73-77). -/
def get_similar_tickets (st : SessionStore) (session_id : String) :
    List JiraTicket :=
  match st.lookup session_id with
  | none => []
  | some s => s.similar_tickets

/-- `SessionStore.set_user_decision` (lines 79-83). -/
def set_user_decision (st : SessionStore) (session_id : String)
    (decision : String) (now : String) : SessionStore :=
  if (st.lookup session_id).isSome then
    st.updateEntry session_id fun s =>
      { s with user_decision := some decision, last_activity := now }
  else st

/-- `SessionStore.get_user_decision` (lines 85-89). -/
def get_user_decision (st : SessionStore) (session_id : String) :
    Option String :=
  match st.lookup session_id with
  | none => none
  | some s => s.user_decision

/-- `SessionStore.clear_session` (lines 91-95): `del` guarded by
membership. -/
def clear_session (st : SessionStore) (session_id : String) : SessionStore :=
  if (st.lookup session_id).isSome then
    ⟨st.sessions.filter fun p => p.1 ≠ session_id⟩
  else st

end SessionStore

/-! ## Pipeline state and agents -/

/-- One entry of the LangGraph `messages` channel: the message class
(`"human"` for `HumanMessage`, `"ai"` for `AIMessage`) and its text. -/
structure Message where
  type : String
  content : String
  deriving Repr, DecidableEq

/-- The `ticket_data` dict extracted by the orchestrator. Each field is
`none` when the JSON omitted the key. -/
structure TicketData where
  summary : Option String
  description : Option String
  issue_type : Option String
  project_key : Option String
  issue_key : Option String
  comment : Option String
  deriving Repr, DecidableEq

/-- The empty `ticket_data` dict. -/
def TicketData.empty : TicketData :=
  { summary := none, description := none, issue_type := none
    project_key := none, issue_key := none, comment := none }

/-- The `AgentState` TypedDict of `src/models/state.py`, threaded through
the LangGraph pipeline. -/
structure AgentState where
  user_query : String
  messages : List Message
  intent : Option String
  is_valid_request : Bool
  guardrail_message : Option String
  similar_tickets : List JiraTicket
  has_similar_tickets : Bool
  action_type : Option String
  ticket_data : Option TicketData
  created_ticket : Option JiraTicket
  final_response : String
  timestamp : String
  conversation_id : Option String
  error : Option String
  deriving Repr, DecidableEq

/-- The `initial_state` literal of `run_jira_assistant`
(`src/graphs/jira_graph.py` lines 221-236): the state a fresh request
enters the pipeline with; on the first turn of a conversation the
`messages` channel holds only the current human message. -/
def initialState (query : String) (cid : Option String) (ts : String) :
    AgentState :=
  { user_query := query, messages := [{ type := "human", content := query }]
    intent := none, is_valid_request := true, guardrail_message := none
    similar_tickets := [], has_similar_tickets := false, action_type := none
    ticket_data := none, created_ticket := none, final_response := ""
    timestamp := ts, conversation_id := cid, error := none }

/-! ## String helpers mirroring the python string operations used by the
agents (`str.lower`, `str.strip`, `re.sub`, `str.replace`). -/

/-- Python `str.lower()` (ASCII as exercised here). -/
def pyLower (s : String) : String := ⟨s.data.map Char.toLower⟩

/-- Python's `\s` character class (`str.strip()` default set). -/
def pyIsSpace (c : Char) : Bool :=
  c == ' ' || c == '\t' || c == '\n' || c == '\r' ||
    c == Char.ofNat 11 || c == Char.ofNat 12

/-- Python `str.strip()` on a character list. -/
def pyStrip (l : List Char) : List Char :=
  ((l.dropWhile pyIsSpace).reverse.dropWhile pyIsSpace).reverse

/-- Python `str.strip()` on a string. -/
def pyStripStr (s : String) : String := ⟨pyStrip s.data⟩

/-- `re.sub(r'<[^>]+>', '', _)`: delete every leftmost match of `<`,
one-plus non-`>` characters, `>`; on no match at a `<`, scanning resumes
at the next character. -/
def stripTagsAux : List Char → List Char
  | [] => []
  | c :: rest =>
    if c = '<' then
      let before := rest.takeWhile fun ch => ch ≠ '>'
      if 0 < before.length ∧ before.length < rest.length then
        stripTagsAux (rest.drop (before.length + 1))
      else c :: stripTagsAux rest
    else c :: stripTagsAux rest
  termination_by l => l.length
  decreasing_by
    · simp only [List.length_drop, List.length_cons]
      omega
    · simp only [List.length_cons]
      omega
    · simp only [List.length_cons]
      omega

/-- Python `str.replace(pat, rep)`: replace every leftmost occurrence,
left to right, non-overlapping. -/
def replaceSub (pat rep : List Char) : List Char → List Char
  | [] => []
  | c :: rest =>
    if h : 0 < pat.length ∧ pat.isPrefixOf (c :: rest) then
      rep ++ replaceSub pat rep ((c :: rest).drop pat.length)
    else c :: replaceSub pat rep rest
  termination_by l => l.length
  decreasing_by
    · simp only [List.length_drop, List.length_cons]
      omega
    · simp only [List.length_cons]
      omega

/-- `re.sub(r'\s+', ' ', _)`: collapse every whitespace run to one
space. -/
def collapseWs : List Char → List Char
  | [] => []
  | c :: rest =>
    if pyIsSpace c then ' ' :: collapseWs (rest.dropWhile pyIsSpace)
    else c :: collapseWs rest
  termination_by l => l.length
  decreasing_by
    · have := (List.dropWhile_sublist (l := rest) pyIsSpace).length_le
      simp only [List.length_cons]
      omega
    · simp only [List.length_cons]
      omega

/-- `strip_html_tags` (`src/agents/jira_agent.py` lines 20-51): falsy
text is returned as-is; otherwise tags are removed, the five HTML
entities decoded in source order, whitespace collapsed, and the result
stripped. -/
def strip_html_tags (text : String) : String :=
  if text = "" then text
  else
    let c1 := stripTagsAux text.data
    let c2 := replaceSub "&nbsp;".data " ".data c1
    let c3 := replaceSub "&lt;".data "<".data c2
    let c4 := replaceSub "&gt;".data ">".data c3
    let c5 := replaceSub "&amp;".data "&".data c4
    let c6 := replaceSub "&quot;".data "\"".data c5
    ⟨pyStrip (collapseWs c6)⟩

/-! ## Orchestrator agent (`src/agents/orchestrator_agent.py`) -/

/-- Outcome of the LLM call plus JSON extraction in `orchestrator_node`
(lines 114-129): either a JSON block was found (with its `intent` and
`ticket_data` keys), or no block was found and the raw reply text is
treated as the intent, or the call/parse raised. -/
inductive OrchLlmResult where
  | json (intent : Option String) (ticket_data : TicketData)
  | plain (content : String)
  | failure

/-- `messages[-6:-1]`: the last up-to-five messages before the current
one. -/
def lastContext (messages : List Message) : List Message :=
  let prior := messages.dropLast
  prior.drop (prior.length - 5)

/-- The conversation-context prompt assembly of `orchestrator_node`
(lines 101-112). -/
def buildFullQuery (st : AgentState) : String :=
  if 1 < st.messages.length then
    let parts := ["Previous conversation:"] ++
      ((lastContext st.messages).map fun m =>
        (if m.type = "human" then "User" else "Assistant") ++ ": " ++ m.content.take 100)
      ++ ["\nCurrent query:"]
    String.intercalate "\n" parts ++ "\n" ++ st.user_query
  else st.user_query

/-- The four intents `orchestrator_node` accepts (line 132). -/
def validIntents : List String := ["search", "create", "update", "info"]

/-- `orchestrator_node` (lines 79-170), with the LLM as an oracle from
the assembled prompt to a parse outcome. The classification is the
lower-cased `intent` key (default `"search"`), coerced to `"search"`
when not one of the four valid intents; an exception anywhere defaults
to intent `"search"` with empty ticket data. Note: no session-store or
first-turn information enters this computation. -/
def orchestrator_node (st : AgentState) (llm : String → OrchLlmResult) :
    AgentState :=
  match llm (buildFullQuery st) with
  | .failure => { st with intent := some "search", ticket_data := some TicketData.empty }
  | .json i td =>
    let intent0 := pyLower (i.getD "search")
    let intent := if validIntents.contains intent0 then intent0 else "search"
    { st with intent := some intent, ticket_data := some td }
  | .plain content =>
    let intent0 := pyLower content
    let intent := if validIntents.contains intent0 then intent0 else "search"
    { st with intent := some intent, ticket_data := some TicketData.empty }

/-- `should_check_similarity` (`src/graphs/jira_graph.py` lines 97-120):
the conditional edge after the orchestrator. `create` and `update` go
straight to the `jira` node, `search` to the `similarity` node,
anything else to the `final` response node. -/
def should_check_similarity (st : AgentState) : String :=
  let intent := st.intent.getD "info"
  if intent = "create" then "jira"
  else if intent = "update" then "jira"
  else if intent = "search" then "similarity"
  else "final"

/-! ## Jira action agent (`src/agents/jira_agent.py`) -/

/-- The ticket-tracker client boundary (`create_jira_ticket` and
`update_jira_ticket_with_comment` from `jira-agents`): the create call
receives project key, summary, description and issue type and yields
the new issue key or raises; the comment call receives issue key and
comment and yields a success flag or raises. -/
structure JiraOracle where
  createResult : String → String → String → String → Except String String
  updateResult : String → String → Except String Bool

/-- The body of `jira_node`'s `try` block (lines 73-192). No state
mutation precedes any raise, so a raise is modelled by `.error` with
the message of the raised exception. -/
def jiraRun (st : AgentState) (oracle : JiraOracle) : Except String AgentState :=
  let intent := st.intent.getD "create"
  let td := st.ticket_data.getD TicketData.empty
  if intent = "create" then
    let project_key := td.project_key.getD "SCRUM"
    let summary0 := td.summary.getD ""
    let summary1 := if summary0 = "" ∨ pyStripStr summary0 = "" then
        st.user_query.take 100 else summary0
    let summary := strip_html_tags summary1
    let description0 := td.description.getD ""
    let description1 := if description0 = "" ∨ pyStripStr description0 = "" then
        st.user_query else description0
    let description := strip_html_tags description1
    let issue_type := td.issue_type.getD "Task"
    match oracle.createResult project_key summary description issue_type with
    | .error e => .error e
    | .ok issue_key =>
      let t : JiraTicket :=
        { id := none, key := issue_key, summary := summary,
          description := description, status := "To Do", priority := "Medium",
          assignee := none, created := "", updated := "", issue_type := issue_type,
          labels := [], similarity_score := none }
      .ok { st with
        created_ticket := some t,
        action_type := some "create",
        final_response := "Successfully created ticket " ++ issue_key ++ ": " ++ summary }
  else if intent = "update" then
    match td.issue_key with
    | none => .error "Issue key is required for update operations"
    | some issue_key =>
      if issue_key = "" then .error "Issue key is required for update operations"
      else
        let comment := td.comment.getD st.user_query
        match oracle.updateResult issue_key comment with
        | .error e => .error e
        | .ok success =>
          if success then
            let t : JiraTicket :=
              { id := none, key := issue_key,
                summary := "Updated ticket " ++ issue_key, description := comment,
                status := "In Progress", priority := "Medium", assignee := none,
                created := "", updated := "", issue_type := "Task", labels := [],
                similarity_score := none }
            .ok { st with
              created_ticket := some t,
              action_type := some "update",
              final_response := "Successfully updated ticket " ++ issue_key }
          else .error "Failed to update ticket"
  else .error ("Unknown intent: " ++ intent)

/-- `jira_node` (lines 54-199): the `try`/`except` wrapper. Any raised
exception is caught; the node always returns a state, with `error` set
and `final_response` explaining the failure on the except path. -/
def jira_node (st : AgentState) (oracle : JiraOracle) : AgentState :=
  match jiraRun st oracle with
  | .ok st' => st'
  | .error e =>
    { st with error := some e, final_response := "I encountered an error: " ++ e }

/-! ## Concrete fixtures used by witnesses and counterexamples -/

/-- A ticket as stored in the vector-store metadata. -/
def sampleTicket : JiraTicket :=
  { id := none, key := "SCRUM-1", summary := "Login bug",
    description := "Users cannot log in", status := "To Do", priority := "High",
    assignee := none, created := "", updated := "", issue_type := "Bug",
    labels := [], similarity_score := none }

/-- A second stored ticket. -/
def sampleTicket2 : JiraTicket :=
  { sampleTicket with key := "SCRUM-2", summary := "API timeout" }

/-- A store as produced by `_initialize_index` on an empty deployment. -/
def freshStore : VectorStore :=
  { dimension := 384, index := [], metadata := [] }

/-- A consistent two-record store over a dimension-2 deployment. -/
def twoStore : VectorStore :=
  { dimension := 2, index := [[0, 0], [3, 4]],
    metadata := [sampleTicket, sampleTicket2] }

/-- A consistent one-record store over a dimension-2 deployment. -/
def oneStore : VectorStore :=
  { dimension := 2, index := [[0, 0]], metadata := [sampleTicket] }

/-- A tracker oracle whose create call returns key `SCRUM-99` and whose
comment call succeeds. -/
def okOracle : JiraOracle :=
  { createResult := fun _ _ _ _ => .ok "SCRUM-99",
    updateResult := fun _ _ => .ok true }

/-- A tracker oracle whose calls all raise with a connection error. -/
def downOracle : JiraOracle :=
  { createResult := fun _ _ _ _ => .error "HTTPError: 503 Service Unavailable",
    updateResult := fun _ _ => .error "HTTPError: 503 Service Unavailable" }

/-- The LLM extraction outcome for an explicit create request: the JSON
block classifies the intent as `create`. -/
def createLlm : String → OrchLlmResult := fun _ =>
  .json (some "create")
    { summary := some "Payment timeout bug",
      description := some "Payments time out after 30 seconds",
      issue_type := some "Bug", project_key := some "SCRUM",
      issue_key := none, comment := none }

/-- The extracted `ticket_data` of an explicit create request. -/
def createTicketData : TicketData :=
  { summary := some "Login bug", description := some "Users cannot log in",
    issue_type := some "Bug", project_key := some "SCRUM",
    issue_key := none, comment := none }

/-- The extracted `ticket_data` of an update request with no resolvable
ticket key. -/
def keylessTicketData : TicketData :=
  { summary := none, description := none, issue_type := none,
    project_key := none, issue_key := none, comment := some "fixed" }

/-- A pipeline state carrying a classified `create` intent together with
a retrieval match of similarity 0.95. -/
def dupState : AgentState :=
  { user_query := "Create a ticket for the login bug",
    messages := [{ type := "human", content := "Create a ticket for the login bug" }],
    intent := some "create", is_valid_request := true, guardrail_message := none,
    similar_tickets := [{ sampleTicket with similarity_score := some (95/100) }],
    has_similar_tickets := true, action_type := none,
    ticket_data := some createTicketData,
    created_ticket := none, final_response := "", timestamp := "t0",
    conversation_id := some "c1", error := none }

/-- A pipeline state carrying an `update` intent whose extraction found
no ticket key. -/
def keylessUpdateState : AgentState :=
  { user_query := "update it with comment: fixed",
    messages := [{ type := "human", content := "update it with comment: fixed" }],
    intent := some "update", is_valid_request := true, guardrail_message := none,
    similar_tickets := [], has_similar_tickets := false, action_type := none,
    ticket_data := some keylessTicketData,
    created_ticket := none, final_response := "", timestamp := "t0",
    conversation_id := some "c1", error := none }

/-! # Theorems

Helper lemmas first, then one theorem per claim (with witnesses and
counterexamples where applicable). -/

/-- Appending a fresh entry to the session dict makes it visible to
lookup when the key was previously absent. -/
theorem SessionStore.lookup_append (l : List (String × SessionData))
    (session_id : String) (v : SessionData)
    (h : (SessionStore.mk l).lookup session_id = none) :
    (SessionStore.mk (l ++ [(session_id, v)])).lookup session_id = some v := by
  induction l with
  | nil => simp [SessionStore.lookup, List.find?]
  | cons x rest ih =>
    simp only [SessionStore.lookup, List.find?, List.cons_append] at h ⊢
    cases hx : decide (x.1 = session_id) with
    | true => rw [hx] at h; simp at h
    | false =>
      simp only [hx] at h ⊢
      exact ih h

/-- C10: for a session id never passed to `get_or_create_session` (i.e.
absent from the dict), `is_first_turn` answers `true`,
`get_similar_tickets` answers `[]`, and the four mutators
`mark_turn_complete`, `store_similarity_results`, `set_user_decision`
and `clear_session` are no-ops that do not create a session; only
`get_or_create_session` creates the entry. -/
theorem C10_unseen_session_id (st : SessionStore) (session_id : String)
    (tickets : List JiraTicket) (decision now now2 now3 now4 : String)
    (h : st.lookup session_id = none) :
    st.is_first_turn session_id = true
    ∧ st.get_similar_tickets session_id = []
    ∧ st.mark_turn_complete session_id now = st
    ∧ st.store_similarity_results session_id tickets now2 = st
    ∧ st.set_user_decision session_id decision now3 = st
    ∧ st.clear_session session_id = st
    ∧ ((st.get_or_create_session session_id now4).2).lookup session_id
        = some (SessionStore.newSession now4) := by
  refine ⟨?_, ?_, ?_, ?_, ?_, ?_, ?_⟩
  · simp [SessionStore.is_first_turn, h]
  · simp [SessionStore.get_similar_tickets, h]
  · simp [SessionStore.mark_turn_complete, h]
  · simp [SessionStore.store_similarity_results, h]
  · simp [SessionStore.set_user_decision, h]
  · simp [SessionStore.clear_session, h]
  · simp only [SessionStore.get_or_create_session, h]
    exact SessionStore.lookup_append st.sessions session_id _ h

/-- C10 witness: the empty store with session id `s1`. -/
theorem C10_witness :
    (SessionStore.mk []).lookup "s1" = none
    ∧ ((SessionStore.mk []).is_first_turn "s1" = true
      ∧ (SessionStore.mk []).get_similar_tickets "s1" = []
      ∧ (SessionStore.mk []).mark_turn_complete "s1" "t1" = SessionStore.mk []
      ∧ (SessionStore.mk []).store_similarity_results "s1" [sampleTicket] "t2"
          = SessionStore.mk []
      ∧ (SessionStore.mk []).set_user_decision "s1" "create_new" "t3"
          = SessionStore.mk []
      ∧ (SessionStore.mk []).clear_session "s1" = SessionStore.mk []
      ∧ (((SessionStore.mk []).get_or_create_session "s1" "t4").2).lookup "s1"
          = some (SessionStore.newSession "t4")) :=
  ⟨rfl, C10_unseen_session_id (SessionStore.mk []) "s1" [sampleTicket]
    "create_new" "t1" "t2" "t3" "t4" rfl⟩

/-- C9: the Action Stage never propagates a fault. For an `update`
intent whose extracted ticket key is absent or empty (python falsy),
`jira_node` returns a state whose `error` holds the raised message and
whose response text explains the failure; likewise for any
tracker-operation failure on the create path, a raising comment call on
the update path, and a comment call reporting failure. In every case a
well-formed `AgentState` is returned (the function is total). -/
theorem C9_action_stage_error_handling (st : AgentState) (oracle : JiraOracle) :
    ((st.intent.getD "create" = "update"
        ∧ ((st.ticket_data.getD TicketData.empty).issue_key = none
          ∨ (st.ticket_data.getD TicketData.empty).issue_key = some "")) →
      (jira_node st oracle).error = some "Issue key is required for update operations"
      ∧ (jira_node st oracle).final_response
          = "I encountered an error: Issue key is required for update operations")
    ∧ (∀ e, st.intent.getD "create" = "create"
        → (∀ pk s d it, oracle.createResult pk s d it = .error e)
        → (jira_node st oracle).error = some e
          ∧ (jira_node st oracle).final_response = "I encountered an error: " ++ e)
    ∧ (∀ e k, st.intent.getD "create" = "update"
        → (st.ticket_data.getD TicketData.empty).issue_key = some k
        → k ≠ ""
        → (∀ ik c, oracle.updateResult ik c = .error e)
        → (jira_node st oracle).error = some e
          ∧ (jira_node st oracle).final_response = "I encountered an error: " ++ e)
    ∧ (∀ k, st.intent.getD "create" = "update"
        → (st.ticket_data.getD TicketData.empty).issue_key = some k
        → k ≠ ""
        → (∀ ik c, oracle.updateResult ik c = .ok false)
        → (jira_node st oracle).error = some "Failed to update ticket"
          ∧ (jira_node st oracle).final_response
              = "I encountered an error: Failed to update ticket") := by
  refine ⟨?_, ?_, ?_, ?_⟩
  · rintro ⟨hin, hkey⟩
    rcases hkey with hkey | hkey <;>
      simp [jira_node, jiraRun, hin, hkey]
  · intro e hin hor
    simp [jira_node, jiraRun, hin, hor]
  · intro e k hin hkey hk hor
    simp [jira_node, jiraRun, hin, hkey, hk, hor]
  · intro k hin hkey hk hor
    simp [jira_node, jiraRun, hin, hkey, hk, hor]

/-- C9 witness: an `update` request with no resolvable key, against a
tracker that is down. -/
theorem C9_witness :
    (keylessUpdateState.intent.getD "create" = "update"
      ∧ ((keylessUpdateState.ticket_data.getD TicketData.empty).issue_key = none
        ∨ (keylessUpdateState.ticket_data.getD TicketData.empty).issue_key = some ""))
    ∧ (jira_node keylessUpdateState downOracle).error
        = some "Issue key is required for update operations"
    ∧ (jira_node keylessUpdateState downOracle).final_response
        = "I encountered an error: Issue key is required for update operations" := by
  have h := (C9_action_stage_error_handling keylessUpdateState downOracle).1
    ⟨rfl, Or.inl rfl⟩
  exact ⟨⟨rfl, Or.inl rfl⟩, h.1, h.2⟩

/-- C7: persisting the index/metadata pair and loading it back yields a
store whose search results for any query, result count and threshold
coincide exactly with those of the pre-persist store (our rational
model computes the float semantics exactly, so the float tolerance is
0). -/
theorem C7_persist_load_roundtrip (vs other : VectorStore) (q : List ℚ)
    (k : Nat) (threshold : Option ℚ) :
    (other.load (some vs.save.1) (some vs.save.2)).search q k threshold
      = vs.search q k threshold := by
  rfl

/-- C5 (amended): search on a store holding zero records returns `[]`
rather than raising; `rebuild` with an empty ticket list leaves the
store cleared so that any subsequent search returns `[]` — but the
`rebuild` call itself raises a `ValueError` (the empty embedding batch
becomes a 1-D numpy array, which the FAISS `add` wrapper rejects when
unpacking its shape), rather than completing silently as the claim
states. -/
theorem C5_empty_store_search (vs : VectorStore) (q q2 : List ℚ) (k k2 : Nat)
    (t t2 : Option ℚ) (h : vs.index.length = 0) :
    vs.search q k t = []
    ∧ ((vs.rebuild [] []).1).search q2 k2 t2 = []
    ∧ ((vs.rebuild [] []).2).isSome = true := by
  refine ⟨?_, rfl, rfl⟩
  simp [VectorStore.search, h]

/-- C5 witness: the fresh empty store. -/
theorem C5_witness :
    freshStore.index.length = 0
    ∧ (freshStore.search [0, 0] 5 none = []
      ∧ ((freshStore.rebuild [] []).1).search [1] 3 (some (1/2)) = []
      ∧ ((freshStore.rebuild [] []).2).isSome = true) :=
  ⟨rfl, C5_empty_store_search freshStore [0, 0] [1] 5 3 none (some (1/2)) rfl⟩

/-- C5 counterexample: `rebuild` with an empty ticket list is an error,
contrary to the claim's "not an error": the call raises the numpy/FAISS
shape `ValueError` (and leaves the store empty). -/
theorem C5_counterexample :
    (freshStore.rebuild [] []).2
      = some "ValueError: not enough values to unpack (expected 2, got 1)" := by
  rfl

/-- C2 (amended): when the classified intent is `create`, the
conditional edge routes directly to the `jira` node — it never consults
the retrieval results, so a high-confidence duplicate cannot suppress
creation — and `jira_node` then performs the tracker create operation
whenever the call succeeds. -/
theorem C2_create_routes_to_jira (st : AgentState) (oracle : JiraOracle)
    (tix : List JiraTicket) (key : String)
    (h : st.intent = some "create")
    (hor : ∀ pk s d it, oracle.createResult pk s d it = .ok key) :
    should_check_similarity st = "jira"
    ∧ should_check_similarity { st with similar_tickets := tix } = "jira"
    ∧ (jira_node st oracle).action_type = some "create"
    ∧ ((jira_node st oracle).created_ticket).isSome = true
    ∧ (jira_node st oracle).error = st.error := by
  refine ⟨?_, ?_, ?_, ?_, ?_⟩ <;>
    simp [should_check_similarity, jira_node, jiraRun, h, hor]

/-- C2 witness: the duplicate-carrying create state against a healthy
tracker. -/
theorem C2_witness :
    dupState.intent = some "create"
    ∧ (should_check_similarity dupState = "jira"
      ∧ should_check_similarity { dupState with similar_tickets := [] } = "jira"
      ∧ (jira_node dupState okOracle).action_type = some "create"
      ∧ ((jira_node dupState okOracle).created_ticket).isSome = true
      ∧ (jira_node dupState okOracle).error = dupState.error) :=
  ⟨rfl, C2_create_routes_to_jira dupState okOracle [] "SCRUM-99" rfl
    (fun _ _ _ _ => rfl)⟩

/-- C2 counterexample: a request whose intent is `create` while the
state carries a retrieval match scoring 0.95 ≥ 0.9. The pipeline still
routes to the `jira` node and the tracker create operation is invoked
and succeeds (the response announces the newly created key instead of
presenting the matches), refuting the claim that creation is suppressed. -/
theorem C2_counterexample :
    ((9 : ℚ)/10 ≤ ((dupState.similar_tickets.headD sampleTicket).similarity_score).getD 0)
    ∧ should_check_similarity dupState = "jira"
    ∧ (jira_node dupState okOracle).action_type = some "create"
    ∧ (jira_node dupState okOracle).final_response
        = "Successfully created ticket SCRUM-99: Login bug" := by
  refine ⟨?_, rfl, ?_, ?_⟩
  · norm_num [dupState, sampleTicket]
  · simp [jira_node, jiraRun, dupState, createTicketData, okOracle,
      strip_html_tags, stripTagsAux, replaceSub, collapseWs, pyStrip, pyIsSpace,
      pyStripStr]
  · simp [jira_node, jiraRun, dupState, createTicketData, okOracle,
      strip_html_tags, stripTagsAux, replaceSub, collapseWs, pyStrip, pyIsSpace,
      pyStripStr]

/-- C1: evaluation of the orchestrator at the repository's own test
input (`test_guardrail_orchestration.py`, test 3): a brand-new
conversation's first request "Create a bug for payment timeout", with
the LLM extraction classifying it as `create`. The orchestrator adopts
intent `create` and the conditional edge routes to the `jira` node —
the first turn is not forced toward retrieval, contradicting the claim
(and the repository's own test, which asserts `intent == "search"` here
by design): no session-store or first-turn information enters
`orchestrator_node` or `should_check_similarity` at all. -/
theorem C1_first_turn_not_forced_to_search :
    (orchestrator_node
        (initialState "Create a bug for payment timeout" (some "test-session-002") "t0")
        createLlm).intent = some "create"
    ∧ should_check_similarity
        (orchestrator_node
          (initialState "Create a bug for payment timeout" (some "test-session-002") "t0")
          createLlm) = "jira"
    ∧ (orchestrator_node
        (initialState "Create a bug for payment timeout" (some "test-session-002") "t0")
        createLlm).intent ≠ some "search" := by
  refine ⟨?_, ?_, ?_⟩ <;>
    simp [orchestrator_node, createLlm, initialState, buildFullQuery,
      should_check_similarity, validIntents, pyLower]

/-- A successful `numpy.array` with a 2-D shape means every row has
length `d`. -/
theorem npArray_two_lengths {es : List (List ℚ)} {n d : Nat}
    (h : npArray es = .ok (.two n d)) : ∀ e ∈ es, e.length = d := by
  cases es with
  | nil => intro e he; exact absurd he (List.not_mem_nil e)
  | cons v rest =>
    simp only [npArray] at h
    split at h
    · rename_i hall
      simp only [Except.ok.injEq, NpShape.two.injEq] at h
      intro e he
      rcases List.mem_cons.mp he with rfl | he2
      · exact h.2
      · have h2 := List.all_eq_true.mp hall e he2
        simp only [decide_eq_true_eq] at h2
        rw [h2]
        exact h.2
    · exact absurd h (by simp)

/-- `add_tickets` either raises before mutating (state unchanged, error
set), or appends vectors and metadata in lock-step, in which case the
ticket and embedding counts matched and every embedding row had the
index dimension. -/
theorem add_tickets_cases (vs : VectorStore) (ts : List JiraTicket)
    (es : List (List ℚ)) :
    ((vs.add_tickets ts es).1 = vs ∧ ((vs.add_tickets ts es).2).isSome = true)
    ∨ (vs.add_tickets ts es
        = ({ vs with index := vs.index ++ es, metadata := vs.metadata ++ ts }, none)
      ∧ ts.length = es.length ∧ ∀ e ∈ es, e.length = vs.dimension) := by
  by_cases hlen : ts.length ≠ es.length
  · left
    simp [VectorStore.add_tickets, hlen]
  · cases hnp : npArray es with
    | error e =>
      left
      simp [VectorStore.add_tickets, hlen, hnp]
    | ok shape =>
      cases shape with
      | one n =>
        left
        simp [VectorStore.add_tickets, hlen, hnp, faissAdd]
      | two n d =>
        by_cases hd : d = vs.dimension
        · right
          refine ⟨?_, not_not.mp hlen, ?_⟩
          · simp [VectorStore.add_tickets, hlen, hnp, faissAdd, hd]
          · intro e he
            rw [npArray_two_lengths hnp e he]
            exact hd
        · left
          simp [VectorStore.add_tickets, hlen, hnp, faissAdd, hd]

/-- C6: whenever any supplied embedding's length differs from the index
dimension D, `add_tickets` fails (a raise from the numpy conversion for
a ragged batch, or from the FAISS `add` dimension assertion) and no
records are added: the store is returned unchanged. -/
theorem C6_add_dimension_mismatch (vs : VectorStore) (ts : List JiraTicket)
    (es : List (List ℚ)) (h : ∃ e ∈ es, e.length ≠ vs.dimension) :
    ((vs.add_tickets ts es).2).isSome = true
    ∧ (vs.add_tickets ts es).1 = vs := by
  rcases add_tickets_cases vs ts es with ⟨h1, h2⟩ | ⟨_, _, hall⟩
  · exact ⟨h2, h1⟩
  · obtain ⟨e, he, hne⟩ := h
    exact absurd (hall e he) hne

/-- C6 witness: adding one ticket with a 2-dimensional embedding to the
384-dimensional fresh store. -/
theorem C6_witness :
    (∃ e ∈ [[(1 : ℚ), 2]], e.length ≠ freshStore.dimension)
    ∧ ((freshStore.add_tickets [sampleTicket] [[(1 : ℚ), 2]]).2).isSome = true
    ∧ (freshStore.add_tickets [sampleTicket] [[(1 : ℚ), 2]]).1 = freshStore := by
  have hex : ∃ e ∈ [[(1 : ℚ), 2]], e.length ≠ freshStore.dimension := by
    refine ⟨[(1 : ℚ), 2], List.mem_singleton.mpr rfl, ?_⟩
    simp [freshStore]
  have h := C6_add_dimension_mismatch freshStore [sampleTicket] [[(1 : ℚ), 2]] hex
  exact ⟨hex, h.1, h.2⟩

/-- C4 (amended): the count invariant `|index| = |metadata|` is
preserved by `add_tickets` (which on success appends vectors and
metadata in lock-step, preserving insertion order), by `clear`, and by
`rebuild`; `load` preserves it only when the loaded pair is itself
consistent, or on the fallback path when the pre-load metadata was
empty (as on initialisation). The claim's unconditional statement for
`load` fails: the code performs no consistency check on the pair, and
the fallback keeps the old metadata while emptying the index. -/
theorem C4_count_invariant (vs : VectorStore) (ts : List JiraTicket)
    (es idxF : List (List ℚ)) (mF : List JiraTicket) (h : storeInv vs) :
    storeInv (vs.add_tickets ts es).1
    ∧ ((vs.add_tickets ts es).2 = none →
        (vs.add_tickets ts es).1.index = vs.index ++ es
        ∧ (vs.add_tickets ts es).1.metadata = vs.metadata ++ ts)
    ∧ storeInv vs.clear
    ∧ storeInv (vs.rebuild ts es).1
    ∧ (idxF.length = mF.length → storeInv (vs.load (some idxF) (some mF)))
    ∧ (vs.metadata = [] →
        storeInv (vs.load none (some mF))
        ∧ storeInv (vs.load none none)
        ∧ storeInv (vs.load (some idxF) none)) := by
  have hclear : storeInv vs.clear := rfl
  have hadd : ∀ w : VectorStore, storeInv w → storeInv (w.add_tickets ts es).1 := by
    intro w hw
    rcases add_tickets_cases w ts es with ⟨h1, _⟩ | ⟨h1, h2, _⟩
    · rw [h1]; exact hw
    · rw [h1]
      show (w.index ++ es).length = (w.metadata ++ ts).length
      simp only [List.length_append]
      rw [hw, h2]
  refine ⟨hadd vs h, ?_, hclear, hadd vs.clear hclear, ?_, ?_⟩
  · intro hok
    rcases add_tickets_cases vs ts es with ⟨_, h2⟩ | ⟨h1, _, _⟩
    · rw [hok] at h2; exact absurd h2 (by simp)
    · rw [h1]
      exact ⟨rfl, rfl⟩
  · intro hlen
    show idxF.length = mF.length
    exact hlen
  · intro hm
    refine ⟨?_, ?_, ?_⟩ <;>
      simp [VectorStore.load, VectorStore.initIndex, storeInv, hm]

/-- C4 witness: a lock-step add of one in-dimension vector to the
two-record store, and a consistent load pair. -/
theorem C4_witness :
    storeInv twoStore
    ∧ (storeInv (twoStore.add_tickets [sampleTicket] [[(1 : ℚ), 0]]).1
      ∧ ((twoStore.add_tickets [sampleTicket] [[(1 : ℚ), 0]]).2 = none →
          (twoStore.add_tickets [sampleTicket] [[(1 : ℚ), 0]]).1.index
              = twoStore.index ++ [[(1 : ℚ), 0]]
          ∧ (twoStore.add_tickets [sampleTicket] [[(1 : ℚ), 0]]).1.metadata
              = twoStore.metadata ++ [sampleTicket])
      ∧ storeInv twoStore.clear
      ∧ storeInv (twoStore.rebuild [sampleTicket] [[(1 : ℚ), 0]]).1
      ∧ ([[(0 : ℚ), 0]].length = [sampleTicket].length →
          storeInv (twoStore.load (some [[(0 : ℚ), 0]]) (some [sampleTicket])))
      ∧ (twoStore.metadata = [] →
          storeInv (twoStore.load none (some [sampleTicket]))
          ∧ storeInv (twoStore.load none none)
          ∧ storeInv (twoStore.load (some [[(0 : ℚ), 0]]) none))) :=
  ⟨rfl, C4_count_invariant twoStore [sampleTicket] [[(1 : ℚ), 0]]
    [[(0 : ℚ), 0]] [sampleTicket] rfl⟩

/-- C4 counterexample: (a) loading a readable pair whose index holds one
vector while the metadata list is empty leaves the counts unequal — the
code performs no mismatch check; (b) the fallback path of `load` on an
unreadable pair empties the index but keeps the one-record pre-load
metadata, also breaking the invariant. -/
theorem C4_counterexample :
    ¬ storeInv (freshStore.load (some [[0]]) (some []))
    ∧ ¬ storeInv (oneStore.load none none) := by
  constructor <;>
    simp [VectorStore.load, VectorStore.initIndex, storeInv, freshStore, oneStore]

/-- The diagnostic candidate list the search loop accumulates does not
depend on the threshold. -/
theorem searchLoop_candidates_threshold (m : List JiraTicket) (t : ℚ)
    (pairs : List (ℚ × Nat)) :
    (searchLoop m (some t) pairs).2 = (searchLoop m none pairs).2 := by
  induction pairs with
  | nil => rfl
  | cons p rest ih =>
    obtain ⟨d, idx⟩ := p
    by_cases h : idx < m.length
    · simp only [searchLoop, dif_pos h]
      rw [ih]
    · simp only [searchLoop, dif_neg h]
      exact ih

/-- With a threshold, the search loop returns exactly the
threshold-free results filtered by `t ≤ score`. -/
theorem searchLoop_results_filter (m : List JiraTicket) (t : ℚ)
    (pairs : List (ℚ × Nat)) :
    (searchLoop m (some t) pairs).1
      = ((searchLoop m none pairs).1).filter fun r => decide (t ≤ r.2) := by
  induction pairs with
  | nil => rfl
  | cons p rest ih =>
    obtain ⟨d, idx⟩ := p
    by_cases h : idx < m.length
    · simp only [searchLoop, dif_pos h]
      by_cases ht : t ≤ 1 / (1 + d)
      · rw [if_pos ht, ih, List.filter_cons]
        simp only [decide_eq_true_eq]
        rw [if_pos ht]
      · rw [if_neg ht, ih, List.filter_cons]
        simp only [decide_eq_true_eq]
        rw [if_neg ht]
    · simp only [searchLoop, dif_neg h]
      exact ih

/-- C8: with a threshold, every returned record scores at least the
threshold; the returned list is exactly the unthresholded result list
filtered at the threshold (so every below-threshold candidate is
excluded); and the diagnostic candidate list — all candidate scores,
which the code logs — is computed identically with or without the
threshold. -/
theorem C8_threshold_filtering (vs : VectorStore) (q : List ℚ) (k : Nat)
    (t : ℚ) :
    (∀ r ∈ vs.search q k (some t), t ≤ r.2)
    ∧ vs.search q k (some t)
        = (vs.search q k none).filter (fun r => decide (t ≤ r.2))
    ∧ vs.searchCandidates q k (some t) = vs.searchCandidates q k none := by
  have hfil : vs.search q k (some t)
      = (vs.search q k none).filter fun r => decide (t ≤ r.2) := by
    unfold VectorStore.search
    by_cases h0 : vs.index.length = 0
    · simp [h0]
    · simp only [if_neg h0]
      exact searchLoop_results_filter _ _ _
  refine ⟨?_, hfil, ?_⟩
  · intro r hr
    rw [hfil] at hr
    exact of_decide_eq_true (List.mem_filter.mp hr).2
  · unfold VectorStore.searchCandidates
    by_cases h0 : vs.index.length = 0
    · simp [h0]
    · simp only [if_neg h0]
      exact searchLoop_candidates_threshold _ _ _

/-- C8 witness: the two-record store queried at threshold 0; both
candidates score above it, so the filtered result list has both
entries. -/
theorem C8_witness :
    (∀ r ∈ twoStore.search [0, 0] 5 (some 0), (0 : ℚ) ≤ r.2)
    ∧ twoStore.search [0, 0] 5 (some 0)
        = (twoStore.search [0, 0] 5 none).filter (fun r => decide ((0 : ℚ) ≤ r.2))
    ∧ twoStore.searchCandidates [0, 0] 5 (some 0)
        = twoStore.searchCandidates [0, 0] 5 none
    ∧ (twoStore.search [0, 0] 5 (some 0)).length = 2 := by
  have h := C8_threshold_filtering twoStore [0, 0] 5 0
  refine ⟨h.1, h.2.1, h.2.2, ?_⟩
  simp only [VectorStore.search, twoStore, faissSearch, withIdxFrom, sqDist,
    List.insertionSort, List.orderedInsert, sampleTicket,
    sampleTicket2, faissOrder]
  norm_num [searchLoop]

/-- Squared L2 distances are nonnegative. -/
theorem sqDist_nonneg (q v : List ℚ) : 0 ≤ sqDist q v := by
  apply List.sum_nonneg
  intro x hx
  simp only [sqDist, List.mem_map] at hx
  obtain ⟨p, _, rfl⟩ := hx
  positivity

/-- Indexed pairing: members carry a value from the list and an index
below `i + length`. -/
theorem withIdxFrom_mem {l : List ℚ} {i : Nat} {p : ℚ × Nat}
    (h : p ∈ withIdxFrom i l) : p.1 ∈ l ∧ p.2 < i + l.length := by
  induction l generalizing i with
  | nil => cases h
  | cons d rest ih =>
    rcases List.mem_cons.mp h with rfl | h2
    · exact ⟨List.mem_cons_self _ _, by simp⟩
    · obtain ⟨h1, h2'⟩ := ih h2
      refine ⟨List.mem_cons_of_mem _ h1, ?_⟩
      simp only [List.length_cons]
      omega

/-- Members of a FAISS search result carry the squared distance to some
stored vector and a valid row id. -/
theorem faissSearch_mem {index : List (List ℚ)} {q : List ℚ} {k : Nat}
    {p : ℚ × Nat} (h : p ∈ faissSearch index q k) :
    (∃ v ∈ index, p.1 = sqDist q v) ∧ p.2 < index.length := by
  have h1 : p ∈ List.insertionSort faissOrder
      (withIdxFrom 0 (index.map (sqDist q))) := List.mem_of_mem_take h
  have h2 : p ∈ withIdxFrom 0 (index.map (sqDist q)) :=
    (List.perm_insertionSort faissOrder _).mem_iff.mp h1
  have h3 := withIdxFrom_mem h2
  constructor
  · obtain ⟨v, hv, he⟩ := List.mem_map.mp h3.1
    exact ⟨v, hv, he.symm⟩
  · have := h3.2
    simpa using this

/-- `withIdxFrom` preserves length. -/
theorem length_withIdxFrom (i : Nat) (l : List ℚ) :
    (withIdxFrom i l).length = l.length := by
  induction l generalizing i with
  | nil => rfl
  | cons d rest ih => simp [withIdxFrom, ih]

/-- A FAISS search for `k` results over `n` rows yields `min k n`
results. -/
theorem faissSearch_length (index : List (List ℚ)) (q : List ℚ) (k : Nat) :
    (faissSearch index q k).length = min k index.length := by
  unfold faissSearch
  rw [List.length_take, List.length_insertionSort, length_withIdxFrom,
    List.length_map]

/-- FAISS search results come back ordered by `faissOrder`
(non-decreasing distance). -/
theorem faissSearch_pairwise (index : List (List ℚ)) (q : List ℚ) (k : Nat) :
    (faissSearch index q k).Pairwise faissOrder := by
  have h : List.Pairwise faissOrder
      (List.insertionSort faissOrder (withIdxFrom 0 (index.map (sqDist q)))) :=
    List.sorted_insertionSort faissOrder _
  exact h.sublist (List.take_sublist _ _)

/-- When every row id is in metadata range (the count invariant), the
threshold-free loop returns one result per pair with score
`1/(1 + distance)`, in pair order. -/
theorem searchLoop_none_scores (m : List JiraTicket) (pairs : List (ℚ × Nat))
    (hm : ∀ p ∈ pairs, p.2 < m.length) :
    ((searchLoop m none pairs).1).map Prod.snd
      = pairs.map fun p => 1 / (1 + p.1) := by
  induction pairs with
  | nil => rfl
  | cons p rest ih =>
    obtain ⟨d, idx⟩ := p
    have hidx : idx < m.length := hm (d, idx) (List.mem_cons_self _ _)
    simp only [searchLoop, dif_pos hidx, List.map_cons]
    rw [ih fun p hp => hm p (List.mem_cons_of_mem _ hp)]

/-- Every score the loop returns is `1/(1 + d)` for the distance `d` of
some processed pair. -/
theorem searchLoop_mem_scores {m : List JiraTicket} {thr : Option ℚ}
    {pairs : List (ℚ × Nat)} {r : JiraTicket × ℚ}
    (h : r ∈ (searchLoop m thr pairs).1) :
    ∃ p ∈ pairs, r.2 = 1 / (1 + p.1) := by
  induction pairs with
  | nil => cases h
  | cons p rest ih =>
    obtain ⟨d, idx⟩ := p
    by_cases hidx : idx < m.length
    · cases thr with
      | none =>
        simp only [searchLoop, dif_pos hidx] at h
        rcases List.mem_cons.mp h with rfl | h2
        · exact ⟨(d, idx), List.mem_cons_self _ _, rfl⟩
        · exact (ih h2).imp fun p hp => ⟨List.mem_cons_of_mem _ hp.1, hp.2⟩
      | some t =>
        simp only [searchLoop, dif_pos hidx] at h
        by_cases ht : t ≤ 1 / (1 + d)
        · rw [if_pos ht] at h
          rcases List.mem_cons.mp h with rfl | h2
          · exact ⟨(d, idx), List.mem_cons_self _ _, rfl⟩
          · exact (ih h2).imp fun p hp => ⟨List.mem_cons_of_mem _ hp.1, hp.2⟩
        · rw [if_neg ht] at h
          exact (ih h).imp fun p hp => ⟨List.mem_cons_of_mem _ hp.1, hp.2⟩
    · simp only [searchLoop, dif_neg hidx] at h
      exact (ih h).imp fun p hp => ⟨List.mem_cons_of_mem _ hp.1, hp.2⟩

/-- C3 (amended): under the count invariant, for `k ≥ 1` a
threshold-free `search(q, k)` returns exactly `min(k, n)` results,
ordered by non-increasing similarity score; every score equals
`1/(1 + d)` where `d` is the *squared* L2 distance to some stored
vector (the distance FAISS's `IndexFlatL2` reports), and therefore lies
in (0, 1]. The claim's `1/(1 + L2-distance)` formula (plain Euclidean
distance) does not hold — see the counterexample. -/
theorem C3_search_count_order_range (vs : VectorStore) (q : List ℚ) (k : Nat)
    (hinv : storeInv vs) (hk : 1 ≤ k) :
    (vs.search q k none).length = min k vs.index.length
    ∧ ((vs.search q k none).map Prod.snd).Pairwise (fun a b : ℚ => b ≤ a)
    ∧ ∀ r ∈ vs.search q k none,
        (∃ v ∈ vs.index, r.2 = 1 / (1 + sqDist q v)) ∧ 0 < r.2 ∧ r.2 ≤ 1 := by
  by_cases h0 : vs.index.length = 0
  · refine ⟨by simp [VectorStore.search, h0], by simp [VectorStore.search, h0], ?_⟩
    intro r hr
    simp [VectorStore.search, h0] at hr
  · have hm : ∀ p ∈ faissSearch vs.index q (min k vs.index.length),
        p.2 < vs.metadata.length := by
      intro p hp
      rw [← hinv]
      exact (faissSearch_mem hp).2
    have hsearch : vs.search q k none
        = (searchLoop vs.metadata none
            (faissSearch vs.index q (min k vs.index.length))).1 := by
      simp [VectorStore.search, h0]
    refine ⟨?_, ?_, ?_⟩
    · have hmap := searchLoop_none_scores vs.metadata _ hm
      have hlen := congrArg List.length hmap
      simp only [List.length_map] at hlen
      rw [hsearch, hlen, faissSearch_length]
      omega
    · rw [hsearch, searchLoop_none_scores vs.metadata _ hm]
      rw [List.pairwise_map]
      refine List.Pairwise.imp_of_mem ?_
        (faissSearch_pairwise vs.index q (min k vs.index.length))
      intro a b ha _ hab
      have ha0 : 0 ≤ a.1 := by
        obtain ⟨v, _, he⟩ := (faissSearch_mem ha).1
        rw [he]
        exact sqDist_nonneg q v
      have hab' : a.1 ≤ b.1 := by
        rcases hab with hlt | ⟨heq, _⟩
        · exact le_of_lt hlt
        · exact le_of_eq heq
      apply one_div_le_one_div_of_le <;> linarith
    · intro r hr
      rw [hsearch] at hr
      obtain ⟨p, hp, he⟩ := searchLoop_mem_scores hr
      obtain ⟨⟨v, hv, hd⟩, _⟩ := faissSearch_mem hp
      have h0d : 0 ≤ p.1 := hd ▸ sqDist_nonneg q v
      refine ⟨⟨v, hv, by rw [he, hd]⟩, ?_, ?_⟩
      · rw [he]
        exact one_div_pos.mpr (by linarith)
      · rw [he, div_le_one (by linarith)]
        linarith

/-- C3 witness: the two-record store with `k = 5`. -/
theorem C3_witness :
    storeInv twoStore ∧ 1 ≤ 5
    ∧ ((twoStore.search [0, 0] 5 none).length = min 5 twoStore.index.length
      ∧ ((twoStore.search [0, 0] 5 none).map Prod.snd).Pairwise
          (fun a b : ℚ => b ≤ a)
      ∧ ∀ r ∈ twoStore.search [0, 0] 5 none,
          (∃ v ∈ twoStore.index, r.2 = 1 / (1 + sqDist [0, 0] v))
          ∧ 0 < r.2 ∧ r.2 ≤ 1) :=
  ⟨rfl, by omega,
    C3_search_count_order_range twoStore [0, 0] 5 rfl (by omega)⟩

/-- C3 counterexample: a one-record store whose vector is `[0, 0]` over
dimension 2, queried with `[2, 0]`. The Euclidean L2 distance is 2
(conjuncts 2 and 3: it is nonnegative and its square is the squared
distance), so the claim's score `1/(1 + L2)` would be `1/3`; the code
returns `1/5 = 1/(1 + 4)` because FAISS reports the squared distance. -/
theorem C3_counterexample :
    ((oneStore.search [2, 0] 1 none).map Prod.snd = [1/5])
    ∧ ((0 : ℚ) ≤ 2 ∧ (2 : ℚ) ^ 2 = sqDist [2, 0] [0, 0])
    ∧ (1 : ℚ)/5 ≠ 1/(1 + 2) := by
  refine ⟨?_, ⟨by norm_num, ?_⟩, by norm_num⟩
  · simp only [VectorStore.search, oneStore, faissSearch, withIdxFrom, sqDist,
      List.insertionSort, List.orderedInsert, searchLoop, sampleTicket]
    norm_num
  · simp only [sqDist]
    norm_num

end JiraAgent
